import Mathlib

/-!
Verification of the nextPFF domain-scanning pipeline.

This file shallowly embeds the core of the repository — the Registration
Prober, the Website Prober, the Scan Orchestrator's per-domain step and the
History Reconciler — as executable Lean definitions, and proves the
specification's claims about them.

Network effects are modelled by passing the outcome of each HTTP fetch
(a status code, or a thrown network error) as an explicit argument: each
prober consumes at most two fetch outcomes per scheme, matching the source's
bounded retry structure.  Timestamps are integers in milliseconds.
-/

namespace NextPFF

/-- Outcome of one RDAP fetch: an HTTP status code, or a network failure
(timeout/abort/connection error — anything the source's `catch` receives). -/
inductive FetchOutcome where
  | status (code : Nat)
  | netErr (msg : String)
deriving DecidableEq, Repr

/-- Outcome of one website fetch: an HTTP status code, or a thrown error
carrying the runtime error's `name` and `message`. -/
inductive WebOutcome where
  | status (code : Nat)
  | err (name : String) (msg : String)
deriving DecidableEq, Repr

/-- a website probe attempt result (`WebsiteProbeResult` of the spec; the
object literals built by `tryOnce` in both implementations). -/
structure Attempt where
  present : Bool
  protocol : Option String := none
  status : Option Nat := none
  urlTried : Option String := none
  error : Option String := none
deriving DecidableEq, Repr

/-- the default absent website value `{ present: false }` assigned before the
conditional website probe in both orchestrators. -/
def defaultWebsite : Attempt := { present := false }

/-- a Domain Record as assembled by both orchestrators.  Fields no claim
consults (tld, checkedAt) are omitted. -/
structure DomainRecord where
  domain : String
  registered : Bool
  website : Attempt
deriving DecidableEq, Repr

/-- per-domain fetch environment: the outcomes of the at most six fetches one
scan iteration can issue (registration HEAD and its 429 retry; https HEAD,
https GET, http HEAD, http GET). -/
structure ProbeEnv where
  regFirst : FetchOutcome
  regRetry : FetchOutcome
  webHttpsHead : WebOutcome
  webHttpsGet : WebOutcome
  webHttpHead : WebOutcome
  webHttpGet : WebOutcome
deriving DecidableEq, Repr

namespace WhoisChecker

/-- isRegistered from src/server/cron/whoisChecker.ts (lines 45–65).
`first` is the outcome of the initial HEAD fetch; `retry` is the outcome of
the second fetch, consumed only on a 429.  A thrown fetch lands in the
function's `catch`, which returns false. -/
def isRegistered (first retry : FetchOutcome) : Bool :=
  match first with
  | .netErr _ => false
  | .status s =>
    if s = 200 then true
    else if s = 404 then false
    else if s = 429 then
      match retry with
      | .netErr _ => false
      | .status r => r == 200 || r == 404
    else false

/-- tryOnce inside checkWebsitePresence, src/server/cron/whoisChecker.ts
(lines 74–90).  `head` is the outcome of the HEAD fetch, `get` the outcome of
the GET fetch, consumed only when the HEAD status is 405 or 403.  An
AbortError (the timeout) is recorded as error "timeout", any other thrown
error as its message. -/
def tryOnce (domain proto : String) (head get : WebOutcome) : Attempt :=
  let url := proto ++ "://" ++ domain
  let fin : WebOutcome :=
    match head with
    | .status s => if s = 405 ∨ s = 403 then get else .status s
    | .err n m => .err n m
  match fin with
  | .status s =>
    { present := decide (200 ≤ s ∧ s < 400), protocol := some proto,
      status := some s, urlTried := some url }
  | .err n m =>
    if n = "AbortError" then { present := false, error := some "timeout", urlTried := some url }
    else { present := false, error := some m, urlTried := some url }

/-- JavaScript truthiness of `result.status` in `httpsResult.status ?
httpsResult : httpResult`: the field is set and not zero. -/
def statusTruthy (a : Attempt) : Bool :=
  match a.status with
  | none => false
  | some s => s != 0

/-- checkWebsitePresence from src/server/cron/whoisChecker.ts (lines 67–100).
The four arguments are the outcomes of the (at most) four fetches: https
HEAD, https GET, http HEAD, http GET. -/
def checkWebsitePresence (domain : String)
    (hsHead hsGet htHead htGet : WebOutcome) : Attempt :=
  let httpsResult := tryOnce domain "https" hsHead hsGet
  if httpsResult.present then httpsResult
  else
    let httpResult := tryOnce domain "http" htHead htGet
    if httpResult.present then httpResult
    else
      let best := if statusTruthy httpsResult then httpsResult else httpResult
      if best.present then best else { present := false, error := some "not reachable" }

/-- one iteration of the scan loop in defineCronHandler,
src/server/cron/whoisChecker.ts (lines 136–152): probe registration, then
probe the website only when registered.  The second component counts how
often the Website Prober was invoked for this domain. -/
def scanDomain (domain : String) (env : ProbeEnv) : DomainRecord × Nat :=
  let registered := isRegistered env.regFirst env.regRetry
  let probed :=
    if registered then
      (checkWebsitePresence domain env.webHttpsHead env.webHttpsGet
        env.webHttpHead env.webHttpGet, 1)
    else (defaultWebsite, 0)
  ({ domain := domain, registered := registered, website := probed.1 }, probed.2)

end WhoisChecker

namespace ScanDomains

/-- isRegistered from src/scripts/scan-domains.mjs (lines 51–64).  On a 429
the retry's outcome replaces the first response (`res = await fetch…`) and is
then interpreted by the same status checks; a thrown retry lands in the
`catch`, which returns false. -/
def isRegistered (first retry : FetchOutcome) : Bool :=
  match first with
  | .netErr _ => false
  | .status s0 =>
    match (if s0 = 429 then retry else .status s0) with
    | .netErr _ => false
    | .status s =>
      if s == 200 || s == 401 then true
      else if s == 404 then false
      else false

/-- tryOnce inside checkWebsite, src/scripts/scan-domains.mjs (lines 243–264
of the tryOnce-based checkWebsite).  Same retry logic as the cron variant;
the url carries a trailing slash and a thrown error is recorded as its
stringified message. -/
def tryOnce (domain proto : String) (head get : WebOutcome) : Attempt :=
  let url := proto ++ "://" ++ domain ++ "/"
  let fin : WebOutcome :=
    match head with
    | .status s => if s = 405 ∨ s = 403 then get else .status s
    | .err n m => .err n m
  match fin with
  | .status s =>
    { present := decide (200 ≤ s ∧ s < 400), protocol := some proto,
      status := some s, urlTried := some url }
  | .err _ m => { present := false, error := some m, urlTried := some url }

/-- JavaScript truthiness of `https.status` in `https.status ? https : http`. -/
def statusTruthy (a : Attempt) : Bool :=
  match a.status with
  | none => false
  | some s => s != 0

/-- checkWebsite from src/scripts/scan-domains.mjs (lines 242–271 of the
tryOnce-based variant): https first, then http, then the https attempt if it
carries a (truthy) status, otherwise the http attempt. -/
def checkWebsite (domain : String)
    (hsHead hsGet htHead htGet : WebOutcome) : Attempt :=
  let https := tryOnce domain "https" hsHead hsGet
  if https.present then https
  else
    let http := tryOnce domain "http" htHead htGet
    if http.present then http
    else if statusTruthy https then https else http

/-- one iteration of the scan loop in main, src/scripts/scan-domains.mjs
(lines 277–285 of the tryOnce-based variant): probe registration, then probe
the website only when registered.  The second component counts how often the
Website Prober was invoked for this domain. -/
def scanDomain (domain : String) (env : ProbeEnv) : DomainRecord × Nat :=
  let registered := isRegistered env.regFirst env.regRetry
  let probed :=
    if registered then
      (checkWebsite domain env.webHttpsHead env.webHttpsGet
        env.webHttpHead env.webHttpGet, 1)
    else (defaultWebsite, 0)
  ({ domain := domain, registered := registered, website := probed.1 }, probed.2)

/-- a derived three-value status string. -/
abbrev Status := String

/-- a history event pushed at src/scripts/scan-domains.mjs lines 154–159. -/
structure HistoryEvent where
  date : Int
  domain : String
  status : Status
  previousStatus : Option Status
deriving DecidableEq, Repr

/-- the history document `{ events, lastState }`; the lastState object is
modelled as an association list with unique keys. -/
structure History where
  events : List HistoryEvent
  lastState : List (String × Status)
deriving DecidableEq, Repr

/-- the empty history document `{ events: [], lastState: {} }`. -/
def emptyHistory : History := { events := [], lastState := [] }

/-- milliseconds per day; the pruning cutoff sits 365 of these before now. -/
def msPerDay : Int := 86400000

/-- property read `history.lastState[domain]?.status`. -/
def lookupState : List (String × Status) → String → Option Status
  | [], _ => none
  | (k, v) :: rest, d => if k = d then some v else lookupState rest d

/-- property write `history.lastState[domain] = { status }`. -/
def setState : List (String × Status) → String → Status → List (String × Status)
  | [], d, s => [(d, s)]
  | (k, v) :: rest, d, s =>
    if k = d then (d, s) :: rest else (k, v) :: setState rest d s

/-- JavaScript `prevStatus || null`: an undefined (or empty-string, both
falsy) previous status is recorded as null. -/
def jsOrNull : Option Status → Option Status
  | none => none
  | some s => if s = "" then none else some s

/-- status derivation, src/scripts/scan-domains.mjs lines 145–148. -/
def deriveStatus (entry : DomainRecord) : Status :=
  if entry.registered then
    if entry.website.present then "website" else "registered"
  else "available"

/-- one iteration of the reconciliation loop, src/scripts/scan-domains.mjs
lines 141–165: push an event when the derived status differs from the
recorded one (or the domain is new), then unconditionally update lastState.
The accumulator carries the history and the newEvents counter. -/
def reconcileStep (now : Int) (acc : History × Nat) (entry : DomainRecord) :
    History × Nat :=
  let currentStatus := deriveStatus entry
  let prevStatus := lookupState acc.1.lastState entry.domain
  let acc1 :=
    if prevStatus ≠ some currentStatus then
      ({ events := acc.1.events ++
            [{ date := now, domain := entry.domain, status := currentStatus,
               previousStatus := jsOrNull prevStatus }],
         lastState := acc.1.lastState }, acc.2 + 1)
    else acc
  ({ events := acc1.1.events,
     lastState := setState acc1.1.lastState entry.domain currentStatus }, acc1.2)

/-- the History Reconciler, src/scripts/scan-domains.mjs lines 138–176: run
the loop over the snapshot's records, then keep only events dated within the
last 365 days.  Returns the updated history and the newEvents count. -/
def reconcile (now : Int) (snapshot : List DomainRecord) (h : History) :
    History × Nat :=
  let r := snapshot.foldl (reconcileStep now) (h, 0)
  let cutoff := now - 365 * msPerDay
  ({ events := r.1.events.filter (fun e => decide (cutoff ≤ e.date)),
     lastState := r.1.lastState }, r.2)

/-- the events the reconciliation loop appends, as a function of the snapshot
and the starting lastState (the loop's event output, characterised by
foldl_reconcileStep_events below). -/
def emittedEvents (now : Int) :
    List DomainRecord → List (String × Status) → List HistoryEvent
  | [], _ => []
  | entry :: rest, st =>
    let c := deriveStatus entry
    let p := lookupState st entry.domain
    (if p ≠ some c then
       [{ date := now, domain := entry.domain, status := c,
          previousStatus := jsOrNull p }]
     else [])
      ++ emittedEvents now rest (setState st entry.domain c)

/-- shape of the on-disk history at load time, src/scripts/scan-domains.mjs
lines 121–131: the file may be missing, unreadable (readFile throws),
malformed (JSON.parse throws, or the parse is a primitive whose property
writes throw inside the same try), or an object whose events / lastState
fields are individually absent or of the wrong type (modelled as none). -/
inductive HistoryFileInput where
  | missing
  | unreadable
  | malformed
  | parsed (events : Option (List HistoryEvent))
      (lastState : Option (List (String × Status)))

/-- history loading, src/scripts/scan-domains.mjs lines 121–131: every
failure path falls back to the empty history, and each structurally wrong
field of a parsed object is individually replaced by its empty default. -/
def loadHistory : HistoryFileInput → History
  | .missing => emptyHistory
  | .unreadable => emptyHistory
  | .malformed => emptyHistory
  | .parsed ev ls => { events := ev.getD [], lastState := ls.getD [] }

end ScanDomains

end NextPFF

open NextPFF

/-- C1 (counterexample): the claim as stated is false on the code.  In
whoisChecker.ts a retry status of 404 yields registered = true (the code
returns the boolean `retry.status == 200 || retry.status == 404`), where the
claim demands false; and in scan-domains.mjs a retry status of 401 yields
registered = true, where the claim's "any other retry outcome" demands
false. -/
theorem registration_retry_claim_counterexample :
    WhoisChecker.isRegistered (.status 429) (.status 404) = true
    ∧ ScanDomains.isRegistered (.status 429) (.status 401) = true := by
  exact ⟨rfl, rfl⟩

/-- C1 (amended): when the first RDAP lookup returns 429, each implementation
retries exactly once and resolves from the retry alone: whoisChecker.ts
returns true iff the retry status is 200 or 404 (the literal
"success-or-not-found" boolean), scan-domains.mjs re-applies its first-attempt
rules to the retry and returns true iff the retry status is 200 or 401; a
retry that throws yields false in both. -/
theorem registration_retry_behavior (r : FetchOutcome) :
    WhoisChecker.isRegistered (.status 429) r
      = (match r with
         | .status c => decide (c = 200 ∨ c = 404)
         | .netErr _ => false)
    ∧ ScanDomains.isRegistered (.status 429) r
      = (match r with
         | .status c => decide (c = 200 ∨ c = 401)
         | .netErr _ => false) := by
  cases r with
  | netErr m => exact ⟨rfl, rfl⟩
  | status c =>
    constructor
    · show (c == 200 || c == 404) = decide (c = 200 ∨ c = 404)
      by_cases h1 : c = 200 <;> by_cases h2 : c = 404 <;> simp [h1, h2]
    · show ScanDomains.isRegistered (.status 429) (.status c) = _
      simp only [ScanDomains.isRegistered, if_pos rfl]
      by_cases h1 : c = 200 <;> by_cases h2 : c = 401 <;>
        by_cases h3 : c = 404 <;> simp [h1, h2, h3]

/-- C2 (code evaluation at the failing input): with the https attempt
answering status 500 and the http attempt throwing (no status),
checkWebsitePresence in whoisChecker.ts returns the generic
`{present:false, error:"not reachable"}` instead of the https attempt — at
the final `best.present ? best : {…}` the selected `best` always has
`present = false`, so the https tie-break is dead code — while checkWebsite
in scan-domains.mjs returns the https attempt carrying status 500, as the
claim states. -/
theorem website_fallback_eval :
    WhoisChecker.checkWebsitePresence "example.ch"
        (.status 500) (.status 500) (.err "TypeError" "fetch failed") (.err "TypeError" "fetch failed")
      = { present := false, error := some "not reachable" }
    ∧ ScanDomains.checkWebsite "example.ch"
        (.status 500) (.status 500) (.err "TypeError" "fetch failed") (.err "TypeError" "fetch failed")
      = { present := false, protocol := some "https", status := some 500,
          urlTried := some "https://example.ch/" } := by
  exact ⟨rfl, rfl⟩

/-- C7: in both website prober implementations, a HEAD response of 403 or 405
causes the same URL to be retried with a GET whose status becomes the
attempt's final status, and for any other HEAD status the HEAD status is
final; in every case the attempt's present field is true iff the final
status is in [200, 400). -/
theorem tryOnce_head_fallback (domain proto : String) (s g : Nat) :
    ((s = 403 ∨ s = 405) →
      (WhoisChecker.tryOnce domain proto (.status s) (.status g)).status = some g
      ∧ ((WhoisChecker.tryOnce domain proto (.status s) (.status g)).present = true
          ↔ 200 ≤ g ∧ g < 400)
      ∧ (ScanDomains.tryOnce domain proto (.status s) (.status g)).status = some g
      ∧ ((ScanDomains.tryOnce domain proto (.status s) (.status g)).present = true
          ↔ 200 ≤ g ∧ g < 400))
    ∧ (¬(s = 403 ∨ s = 405) → ∀ get : WebOutcome,
      (WhoisChecker.tryOnce domain proto (.status s) get).status = some s
      ∧ ((WhoisChecker.tryOnce domain proto (.status s) get).present = true
          ↔ 200 ≤ s ∧ s < 400)
      ∧ (ScanDomains.tryOnce domain proto (.status s) get).status = some s
      ∧ ((ScanDomains.tryOnce domain proto (.status s) get).present = true
          ↔ 200 ≤ s ∧ s < 400)) := by
  constructor
  · intro h
    rcases h with rfl | rfl <;>
      simp [WhoisChecker.tryOnce, ScanDomains.tryOnce]
  · intro h get
    push_neg at h
    simp [WhoisChecker.tryOnce, ScanDomains.tryOnce, h.1, h.2]

/-- C7 (witness): a 403 HEAD followed by a 200 GET yields a present attempt
in both implementations. -/
theorem tryOnce_head_fallback_witness :
    (WhoisChecker.tryOnce "c.ch" "https" (.status 403) (.status 200)).present = true
    ∧ (ScanDomains.tryOnce "c.ch" "https" (.status 403) (.status 200)).present = true := by
  have h := (tryOnce_head_fallback "c.ch" "https" 403 200).1 (Or.inl rfl)
  exact ⟨h.2.1.mpr (by norm_num), h.2.2.2.mpr (by norm_num)⟩

/-- C10 (counterexample): the two Registration Prober implementations
disagree.  On a first response of 401, whoisChecker.ts returns false while
scan-domains.mjs returns true; after a 429, a retry of 404 gives true in
whoisChecker.ts but false in scan-domains.mjs, and a retry of 401 gives false
in whoisChecker.ts but true in scan-domains.mjs. -/
theorem prober_equivalence_counterexample :
    (WhoisChecker.isRegistered (.status 401) (.netErr "e") = false
      ∧ ScanDomains.isRegistered (.status 401) (.netErr "e") = true)
    ∧ (WhoisChecker.isRegistered (.status 429) (.status 404) = true
      ∧ ScanDomains.isRegistered (.status 429) (.status 404) = false)
    ∧ (WhoisChecker.isRegistered (.status 429) (.status 401) = false
      ∧ ScanDomains.isRegistered (.status 429) (.status 401) = true) := by
  exact ⟨⟨rfl, rfl⟩, ⟨rfl, rfl⟩, ⟨rfl, rfl⟩⟩

/-- C10 (amended): outside the three divergence points exhibited by the
counterexample — a first status of 401, or a first status of 429 followed by
a retry status of 401 or 404 — the two Registration Prober implementations
return the same boolean for every fixed pair of fetch outcomes. -/
theorem prober_equivalence_outside_divergence (first retry : FetchOutcome)
    (h1 : first ≠ .status 401)
    (h2 : first = .status 429 → retry ≠ .status 401)
    (h3 : first = .status 429 → retry ≠ .status 404) :
    WhoisChecker.isRegistered first retry = ScanDomains.isRegistered first retry := by
  cases first with
  | netErr m => rfl
  | status s =>
    by_cases hs429 : s = 429
    · subst hs429
      cases retry with
      | netErr m => rfl
      | status r =>
        have hr1 : r ≠ 401 := by
          intro h; exact h2 rfl (by rw [h])
        have hr4 : r ≠ 404 := by
          intro h; exact h3 rfl (by rw [h])
        simp only [WhoisChecker.isRegistered, ScanDomains.isRegistered, if_pos rfl]
        by_cases hr0 : r = 200 <;> simp [hr0, hr1, hr4]
    · have hs401 : s ≠ 401 := by
        intro h; exact h1 (by rw [h])
      simp only [WhoisChecker.isRegistered, ScanDomains.isRegistered]
      by_cases h200 : s = 200 <;> by_cases h404 : s = 404 <;>
        simp [h200, h404, hs429, hs401]

/-- C10 (witness): the amended equivalence at a concrete input. -/
theorem prober_equivalence_outside_divergence_witness :
    WhoisChecker.isRegistered (.status 200) (.netErr "e")
      = ScanDomains.isRegistered (.status 200) (.netErr "e") :=
  prober_equivalence_outside_divergence (.status 200) (.netErr "e")
    (by decide) (by intro h; cases h) (by intro h; cases h)

/-- looking a key up right after setting it yields the written status. -/
theorem lookupState_setState_self (m : List (String × ScanDomains.Status))
    (d : String) (v : ScanDomains.Status) :
    ScanDomains.lookupState (ScanDomains.setState m d v) d = some v := by
  induction m with
  | nil => simp [ScanDomains.setState, ScanDomains.lookupState]
  | cons p rest ih =>
    obtain ⟨k, w⟩ := p
    by_cases hk : k = d
    · simp [ScanDomains.setState, ScanDomains.lookupState, hk]
    · simp [ScanDomains.setState, ScanDomains.lookupState, hk, ih]

/-- setting one key leaves lookups of other keys unchanged. -/
theorem lookupState_setState_ne (m : List (String × ScanDomains.Status))
    (d d' : String) (v : ScanDomains.Status) (hne : d ≠ d') :
    ScanDomains.lookupState (ScanDomains.setState m d' v) d
      = ScanDomains.lookupState m d := by
  have hne' : ¬(d' = d) := fun h => hne h.symm
  induction m with
  | nil => simp [ScanDomains.setState, ScanDomains.lookupState, hne']
  | cons p rest ih =>
    obtain ⟨k, w⟩ := p
    by_cases hkd : k = d
    · subst hkd
      simp [ScanDomains.setState, ScanDomains.lookupState, hne, hne']
    · by_cases hk : k = d'
      · subst hk
        simp [ScanDomains.setState, ScanDomains.lookupState, hne', hkd]
      · simp [ScanDomains.setState, ScanDomains.lookupState, hk, hkd, ih]

/-- writing the status a key already holds leaves the map unchanged. -/
theorem setState_eq_of_lookup (m : List (String × ScanDomains.Status))
    (d : String) (v : ScanDomains.Status)
    (h : ScanDomains.lookupState m d = some v) :
    ScanDomains.setState m d v = m := by
  induction m with
  | nil => simp [ScanDomains.lookupState] at h
  | cons p rest ih =>
    obtain ⟨k, w⟩ := p
    by_cases hk : k = d
    · subst hk
      simp [ScanDomains.lookupState] at h
      simp [ScanDomains.setState, h]
    · simp [ScanDomains.lookupState, hk] at h
      simp [ScanDomains.setState, hk, ih h]

/-- closed form of one reconciliation step: the event list grows by the
conditional event, the counter by the conditional one, and lastState is
updated unconditionally. -/
theorem reconcileStep_eq (now : Int) (acc : ScanDomains.History × Nat)
    (entry : DomainRecord) :
    ScanDomains.reconcileStep now acc entry =
      ({ events := acc.1.events ++
            (if ScanDomains.lookupState acc.1.lastState entry.domain
                ≠ some (ScanDomains.deriveStatus entry) then
              [{ date := now, domain := entry.domain,
                 status := ScanDomains.deriveStatus entry,
                 previousStatus := ScanDomains.jsOrNull
                   (ScanDomains.lookupState acc.1.lastState entry.domain) }]
            else []),
          lastState := ScanDomains.setState acc.1.lastState entry.domain
            (ScanDomains.deriveStatus entry) },
        acc.2 + (if ScanDomains.lookupState acc.1.lastState entry.domain
            ≠ some (ScanDomains.deriveStatus entry) then 1 else 0)) := by
  by_cases hc : ScanDomains.lookupState acc.1.lastState entry.domain
      ≠ some (ScanDomains.deriveStatus entry)
  · simp [ScanDomains.reconcileStep, hc]
  · simp [ScanDomains.reconcileStep, hc]

/-- the reconciliation loop appends exactly the emittedEvents of the
snapshot, in order, after the prior events. -/
theorem foldl_reconcileStep_events (now : Int) :
    ∀ (s : List DomainRecord) (acc : ScanDomains.History × Nat),
      (List.foldl (ScanDomains.reconcileStep now) acc s).1.events
        = acc.1.events ++ ScanDomains.emittedEvents now s acc.1.lastState := by
  intro s
  induction s with
  | nil => intro acc; simp [ScanDomains.emittedEvents]
  | cons a rest ih =>
    intro acc
    rw [List.foldl_cons, ih, reconcileStep_eq]
    simp [ScanDomains.emittedEvents, List.append_assoc]

/-- the loop does not touch lastState entries of domains outside the
snapshot. -/
theorem foldl_reconcileStep_frozen (now : Int) :
    ∀ (s : List DomainRecord) (acc : ScanDomains.History × Nat) (d : String),
      d ∉ s.map (fun r => r.domain) →
      ScanDomains.lookupState
          (List.foldl (ScanDomains.reconcileStep now) acc s).1.lastState d
        = ScanDomains.lookupState acc.1.lastState d := by
  intro s
  induction s with
  | nil => intro acc d _; rfl
  | cons a rest ih =>
    intro acc d hd
    simp only [List.map_cons, List.mem_cons, not_or] at hd
    rw [List.foldl_cons, ih _ d hd.2, reconcileStep_eq]
    simpa using lookupState_setState_ne _ d a.domain _ hd.1

/-- after the loop, every snapshot domain's recorded status is its derived
status (given snapshot domains are pairwise distinct). -/
theorem foldl_reconcileStep_lookup (now : Int) :
    ∀ (s : List DomainRecord) (acc : ScanDomains.History × Nat),
      (s.map (fun r => r.domain)).Nodup →
      ∀ e ∈ s,
        ScanDomains.lookupState
            (List.foldl (ScanDomains.reconcileStep now) acc s).1.lastState e.domain
          = some (ScanDomains.deriveStatus e) := by
  intro s
  induction s with
  | nil => intro acc _ e he; exact absurd he (List.not_mem_nil e)
  | cons a rest ih =>
    intro acc hnd e he
    simp only [List.map_cons, List.nodup_cons] at hnd
    rw [List.foldl_cons]
    rcases List.mem_cons.mp he with rfl | hmem
    · rw [foldl_reconcileStep_frozen now rest _ e.domain hnd.1, reconcileStep_eq]
      simpa using lookupState_setState_self _ e.domain _
    · exact ih _ hnd.2 e hmem

/-- when every snapshot domain's recorded status already equals its derived
status, the loop is the identity: no event, no count, no state change. -/
theorem foldl_reconcileStep_fixed (now : Int) :
    ∀ (s : List DomainRecord) (acc : ScanDomains.History × Nat),
      (∀ e ∈ s, ScanDomains.lookupState acc.1.lastState e.domain
          = some (ScanDomains.deriveStatus e)) →
      List.foldl (ScanDomains.reconcileStep now) acc s = acc := by
  intro s
  induction s with
  | nil => intro acc _; rfl
  | cons a rest ih =>
    intro acc hall
    have ha := hall a (List.mem_cons_self a rest)
    have hstep : ScanDomains.reconcileStep now acc a = acc := by
      rw [reconcileStep_eq, setState_eq_of_lookup _ _ _ ha, ha]
      simp
    rw [List.foldl_cons, hstep]
    exact ih acc (fun e he => hall e (List.mem_cons_of_mem a he))

/-- closed form of reconciliation over a one-record snapshot. -/
theorem reconcile_singleton (now : Int) (r : DomainRecord)
    (h : ScanDomains.History) :
    ScanDomains.reconcile now [r] h =
      ({ events := (h.events ++
            (if ScanDomains.lookupState h.lastState r.domain
                ≠ some (ScanDomains.deriveStatus r) then
              ([{ date := now, domain := r.domain,
                  status := ScanDomains.deriveStatus r,
                  previousStatus := ScanDomains.jsOrNull
                    (ScanDomains.lookupState h.lastState r.domain) }]
                : List ScanDomains.HistoryEvent)
            else [])).filter
              (fun e => decide (now - 365 * ScanDomains.msPerDay ≤ e.date)),
         lastState := ScanDomains.setState h.lastState r.domain
           (ScanDomains.deriveStatus r) },
       if ScanDomains.lookupState h.lastState r.domain
           ≠ some (ScanDomains.deriveStatus r) then 1 else 0) := by
  by_cases hc : ScanDomains.lookupState h.lastState r.domain
      ≠ some (ScanDomains.deriveStatus r)
  · simp [ScanDomains.reconcile, reconcileStep_eq, hc]
  · simp [ScanDomains.reconcile, reconcileStep_eq, hc]

/-- C3 (counterexample): a single domain reconciled across three successive
runs with derived statuses available, registered, website and no prior
history yields three history events — the first-sighting event plus one per
transition — not two: the claim's two-event list is refuted at domain
"a.ch" with run times 1000, 2000, 3000. -/
theorem three_run_two_events_counterexample :
    (ScanDomains.reconcile 3000
        [{ domain := "a.ch", registered := true, website := { present := true } }]
        (ScanDomains.reconcile 2000
          [{ domain := "a.ch", registered := true, website := defaultWebsite }]
          (ScanDomains.reconcile 1000
            [{ domain := "a.ch", registered := false, website := defaultWebsite }]
            ScanDomains.emptyHistory).1).1).1.events
      = [{ date := 1000, domain := "a.ch", status := "available", previousStatus := none },
         { date := 2000, domain := "a.ch", status := "registered", previousStatus := some "available" },
         { date := 3000, domain := "a.ch", status := "website", previousStatus := some "registered" }]
    ∧ (ScanDomains.reconcile 3000
        [{ domain := "a.ch", registered := true, website := { present := true } }]
        (ScanDomains.reconcile 2000
          [{ domain := "a.ch", registered := true, website := defaultWebsite }]
          (ScanDomains.reconcile 1000
            [{ domain := "a.ch", registered := false, website := defaultWebsite }]
            ScanDomains.emptyHistory).1).1).1.events.length ≠ 2 := by
  exact ⟨rfl, by decide⟩

/-- C3 (amended): a single domain reconciled across three successive runs
with derived statuses available, then registered, then website, starting
from no prior history and with all three runs within one 365-day window,
produces exactly three history events, with previousStatus chaining
null → "available" → "registered". -/
theorem three_run_three_events (d : String) (w1 w2 w3 : Attempt)
    (now1 now2 now3 : Int)
    (hw2 : w2.present = false) (hw3 : w3.present = true)
    (h12 : now1 ≤ now2) (h23 : now2 ≤ now3)
    (hspan : now3 - 365 * ScanDomains.msPerDay ≤ now1) :
    (ScanDomains.reconcile now3 [{ domain := d, registered := true, website := w3 }]
      (ScanDomains.reconcile now2 [{ domain := d, registered := true, website := w2 }]
        (ScanDomains.reconcile now1 [{ domain := d, registered := false, website := w1 }]
          ScanDomains.emptyHistory).1).1).1.events
      = [{ date := now1, domain := d, status := "available", previousStatus := none },
         { date := now2, domain := d, status := "registered", previousStatus := some "available" },
         { date := now3, domain := d, status := "website", previousStatus := some "registered" }] := by
  have hms : ScanDomains.msPerDay = 86400000 := rfl
  have hd1 : ScanDomains.deriveStatus { domain := d, registered := false, website := w1 }
      = "available" := by simp [ScanDomains.deriveStatus]
  have hd2 : ScanDomains.deriveStatus { domain := d, registered := true, website := w2 }
      = "registered" := by simp [ScanDomains.deriveStatus, hw2]
  have hd3 : ScanDomains.deriveStatus { domain := d, registered := true, website := w3 }
      = "website" := by simp [ScanDomains.deriveStatus, hw3]
  have s1 : (ScanDomains.reconcile now1
        [{ domain := d, registered := false, website := w1 }] ScanDomains.emptyHistory).1
      = { events := [{ date := now1, domain := d, status := "available", previousStatus := none }],
          lastState := [(d, "available")] } := by
    rw [reconcile_singleton]
    have hm0 : (0 : Int) ≤ ScanDomains.msPerDay := by omega
    simp [ScanDomains.emptyHistory, ScanDomains.lookupState, hd1, ScanDomains.jsOrNull,
      ScanDomains.setState, List.filter_cons, hm0]
  have s2 : (ScanDomains.reconcile now2
        [{ domain := d, registered := true, website := w2 }]
        ({ events := [{ date := now1, domain := d, status := "available", previousStatus := none }],
           lastState := [(d, "available")] } : ScanDomains.History)).1
      = { events := [{ date := now1, domain := d, status := "available", previousStatus := none },
            { date := now2, domain := d, status := "registered", previousStatus := some "available" }],
          lastState := [(d, "registered")] } := by
    rw [reconcile_singleton]
    have hm0 : (0 : Int) ≤ ScanDomains.msPerDay := by omega
    have hc21 : now2 ≤ now1 + 365 * ScanDomains.msPerDay := by omega
    simp [ScanDomains.lookupState, hd2, ScanDomains.jsOrNull,
      ScanDomains.setState, List.filter_cons, hm0, hc21]
  have s3 : (ScanDomains.reconcile now3
        [{ domain := d, registered := true, website := w3 }]
        ({ events := [{ date := now1, domain := d, status := "available", previousStatus := none },
             { date := now2, domain := d, status := "registered", previousStatus := some "available" }],
           lastState := [(d, "registered")] } : ScanDomains.History)).1
      = { events := [{ date := now1, domain := d, status := "available", previousStatus := none },
            { date := now2, domain := d, status := "registered", previousStatus := some "available" },
            { date := now3, domain := d, status := "website", previousStatus := some "registered" }],
          lastState := [(d, "website")] } := by
    rw [reconcile_singleton]
    have hm0 : (0 : Int) ≤ ScanDomains.msPerDay := by omega
    have hc31 : now3 ≤ now1 + 365 * ScanDomains.msPerDay := by omega
    have hc32 : now3 ≤ now2 + 365 * ScanDomains.msPerDay := by omega
    simp [ScanDomains.lookupState, hd3, ScanDomains.jsOrNull,
      ScanDomains.setState, List.filter_cons, hm0, hc31, hc32]
  rw [s1, s2, s3]

/-- C3 (witness): the amended three-event chain at domain "a.ch" with run
times 1000, 2000, 3000. -/
theorem three_run_three_events_witness :
    (ScanDomains.reconcile 3000
      [{ domain := "a.ch", registered := true, website := { present := true } }]
      (ScanDomains.reconcile 2000
        [{ domain := "a.ch", registered := true, website := defaultWebsite }]
        (ScanDomains.reconcile 1000
          [{ domain := "a.ch", registered := false, website := defaultWebsite }]
          ScanDomains.emptyHistory).1).1).1.events
      = [{ date := 1000, domain := "a.ch", status := "available", previousStatus := none },
         { date := 2000, domain := "a.ch", status := "registered", previousStatus := some "available" },
         { date := 3000, domain := "a.ch", status := "website", previousStatus := some "registered" }] :=
  three_run_three_events "a.ch" defaultWebsite defaultWebsite { present := true }
    1000 2000 3000 rfl rfl (by decide) (by decide) (by decide)

/-- C4: reconciling a snapshot (with pairwise-distinct domains, as the data
model assumes) and then reconciling the same snapshot again against the
history produced by the first reconciliation appends zero events the second
time: every derived status already equals the recorded one. -/
theorem reconcile_idempotent (now1 now2 : Int) (s : List DomainRecord)
    (hist : ScanDomains.History)
    (hnd : (s.map (fun r => r.domain)).Nodup) :
    (ScanDomains.reconcile now2 s (ScanDomains.reconcile now1 s hist).1).2 = 0 := by
  set h1 := (ScanDomains.reconcile now1 s hist).1 with hh1
  have hlook : ∀ e ∈ s,
      ScanDomains.lookupState h1.lastState e.domain
        = some (ScanDomains.deriveStatus e) := by
    intro e he
    have hfold := foldl_reconcileStep_lookup now1 s (hist, 0) hnd e he
    rw [hh1]
    simpa [ScanDomains.reconcile] using hfold
  have hfix := foldl_reconcileStep_fixed now2 s (h1, 0) (fun e he => hlook e he)
  simp [ScanDomains.reconcile, hfix]

/-- C4 (witness): idempotence at a concrete one-domain snapshot. -/
theorem reconcile_idempotent_witness :
    (ScanDomains.reconcile 5
      [{ domain := "a.ch", registered := false, website := defaultWebsite }]
      (ScanDomains.reconcile 3
        [{ domain := "a.ch", registered := false, website := defaultWebsite }]
        ScanDomains.emptyHistory).1).2 = 0 :=
  reconcile_idempotent 3 5
    [{ domain := "a.ch", registered := false, website := defaultWebsite }]
    ScanDomains.emptyHistory (by decide)

/-- C5: after reconciliation the event list is exactly the prior events
followed by the newly appended ones, filtered to the last 365 days of the
run time: any event dated strictly before now − 365 d is absent, any event
dated at or after now − (365 d − 1 s) is present, and the survivors keep
their relative order (the result is a sublist of the unpruned sequence). -/
theorem reconcile_pruning (now : Int) (s : List DomainRecord)
    (hist : ScanDomains.History) :
    (ScanDomains.reconcile now s hist).1.events
        = (hist.events ++ ScanDomains.emittedEvents now s hist.lastState).filter
            (fun e => decide (now - 365 * ScanDomains.msPerDay ≤ e.date))
    ∧ (∀ e, e ∈ hist.events ++ ScanDomains.emittedEvents now s hist.lastState →
        e.date < now - 365 * ScanDomains.msPerDay →
        e ∉ (ScanDomains.reconcile now s hist).1.events)
    ∧ (∀ e, e ∈ hist.events ++ ScanDomains.emittedEvents now s hist.lastState →
        now - (365 * ScanDomains.msPerDay - 1000) ≤ e.date →
        e ∈ (ScanDomains.reconcile now s hist).1.events)
    ∧ (ScanDomains.reconcile now s hist).1.events.Sublist
        (hist.events ++ ScanDomains.emittedEvents now s hist.lastState) := by
  have hev : (ScanDomains.reconcile now s hist).1.events
      = (hist.events ++ ScanDomains.emittedEvents now s hist.lastState).filter
          (fun e => decide (now - 365 * ScanDomains.msPerDay ≤ e.date)) := by
    simp [ScanDomains.reconcile, foldl_reconcileStep_events now s (hist, 0)]
  refine ⟨hev, ?_, ?_, ?_⟩
  · intro e hmem hdate
    rw [hev]
    intro hin
    rw [List.mem_filter] at hin
    have := of_decide_eq_true hin.2
    omega
  · intro e hmem hdate
    rw [hev, List.mem_filter]
    exact ⟨hmem, decide_eq_true (by omega)⟩
  · rw [hev]
    exact List.filter_sublist _

/-- C5 (witness): at run time 31536000000 (so the cutoff is 0), a prior
event dated −1 is pruned while one dated 1000 — within 365 days minus one
second of the run time — survives. -/
theorem reconcile_pruning_witness :
    ({ date := -1, domain := "x", status := "available", previousStatus := none }
        : ScanDomains.HistoryEvent)
      ∉ (ScanDomains.reconcile 31536000000 []
          { events := [{ date := -1, domain := "x", status := "available", previousStatus := none },
              { date := 1000, domain := "y", status := "registered", previousStatus := none }],
            lastState := [] }).1.events
    ∧ ({ date := 1000, domain := "y", status := "registered", previousStatus := none }
        : ScanDomains.HistoryEvent)
      ∈ (ScanDomains.reconcile 31536000000 []
          { events := [{ date := -1, domain := "x", status := "available", previousStatus := none },
              { date := 1000, domain := "y", status := "registered", previousStatus := none }],
            lastState := [] }).1.events := by
  have h := reconcile_pruning 31536000000 []
    { events := [{ date := -1, domain := "x", status := "available", previousStatus := none },
        { date := 1000, domain := "y", status := "registered", previousStatus := none }],
      lastState := [] }
  exact ⟨h.2.1 _ (by decide) (by decide), h.2.2.1 _ (by decide) (by decide)⟩

/-- C6: the derived status of every Domain Record is exactly one of
"available", "registered", "website": "available" iff not registered,
"website" iff registered with a present website, "registered" iff registered
without one. -/
theorem derive_status_classification (r : DomainRecord) :
    (ScanDomains.deriveStatus r = "available"
      ∨ ScanDomains.deriveStatus r = "registered"
      ∨ ScanDomains.deriveStatus r = "website")
    ∧ (ScanDomains.deriveStatus r = "available" ↔ r.registered = false)
    ∧ (ScanDomains.deriveStatus r = "website"
        ↔ r.registered = true ∧ r.website.present = true)
    ∧ (ScanDomains.deriveStatus r = "registered"
        ↔ r.registered = true ∧ r.website.present = false) := by
  cases hr : r.registered <;> cases hw : r.website.present <;>
    simp [ScanDomains.deriveStatus, hr, hw]

/-- C8: in both scan loops, when the Registration Prober returns false the
Domain Record's website field is the default { present: false } and the
Website Prober is invoked zero times. -/
theorem unregistered_default_website (dom : String) (env : ProbeEnv) :
    (WhoisChecker.isRegistered env.regFirst env.regRetry = false →
      WhoisChecker.scanDomain dom env
        = ({ domain := dom, registered := false, website := defaultWebsite }, 0))
    ∧ (ScanDomains.isRegistered env.regFirst env.regRetry = false →
      ScanDomains.scanDomain dom env
        = ({ domain := dom, registered := false, website := defaultWebsite }, 0)) := by
  constructor <;> intro hreg <;>
    simp [WhoisChecker.scanDomain, ScanDomains.scanDomain, hreg]

/-- C8 (witness): a 404 registration lookup yields the default website and
no Website Prober call in both implementations. -/
theorem unregistered_default_website_witness :
    WhoisChecker.scanDomain "a.ch"
        ⟨.status 404, .status 404, .status 200, .status 200, .status 200, .status 200⟩
      = ({ domain := "a.ch", registered := false, website := defaultWebsite }, 0)
    ∧ ScanDomains.scanDomain "a.ch"
        ⟨.status 404, .status 404, .status 200, .status 200, .status 200, .status 200⟩
      = ({ domain := "a.ch", registered := false, website := defaultWebsite }, 0) := by
  have h := unregistered_default_website "a.ch"
    ⟨.status 404, .status 404, .status 200, .status 200, .status 200, .status 200⟩
  exact ⟨h.1 rfl, h.2 rfl⟩

/-- C9: a missing, unreadable or malformed history file loads as the empty
history { events: [], lastState: {} }; a parsed object with a non-array
events field or non-object lastState field has just that field replaced by
its empty default; and reconciliation proceeds normally against the
recovered history. -/
theorem history_load_recovery :
    ScanDomains.loadHistory .missing = ScanDomains.emptyHistory
    ∧ ScanDomains.loadHistory .unreadable = ScanDomains.emptyHistory
    ∧ ScanDomains.loadHistory .malformed = ScanDomains.emptyHistory
    ∧ (∀ ls, ScanDomains.loadHistory (.parsed none (some ls))
        = { events := [], lastState := ls })
    ∧ (∀ ev, ScanDomains.loadHistory (.parsed (some ev) none)
        = { events := ev, lastState := [] })
    ∧ (∀ now s, ScanDomains.reconcile now s (ScanDomains.loadHistory .missing)
        = ScanDomains.reconcile now s ScanDomains.emptyHistory)
    ∧ (∀ now s, ScanDomains.reconcile now s (ScanDomains.loadHistory .malformed)
        = ScanDomains.reconcile now s ScanDomains.emptyHistory) := by
  exact ⟨rfl, rfl, rfl, fun ls => rfl, fun ev => rfl,
    fun now s => rfl, fun now s => rfl⟩
